import Mathlib

/-!
Verification development for the CODEZILLAS repository, a thin orchestration
layer wiring an LLM-agent framework to a workspace toolset.

The embedding covers, from `src/coders/composio_coders/swe.py`:
  the `CoderAgent` constructor, `save_history`, `add_in_logs`, `get_llm`
  and `run`; and from
  `src/python/composio/local_tools/local_workspace/cmd_manager/actions/edit_cmd.py`:
  the `EditFile.execute` command construction.
External collaborators (workspace service, crew engine, LLM backends,
`os.environ`) are modelled as an explicit environment of call results, and
every external call and file write made by the code is recorded in an event
trace, so that ordering and absence of effects can be stated.
Python strings are Lean `String`, Python ints are `Int`, `None`-able values
are `Option`, raised exceptions are the `Except` error branch.
-/

/-- Python `dict.get`: first binding of the key in an association list,
mirroring a Python `dict` (which has no duplicate keys). -/
def dictGet (d : List (String × String)) (k : String) : Option String :=
  match d with
  | [] => none
  | (k2, v) :: rest => if k2 = k then some v else dictGet rest k

/-- Python `dict[k] = v`: replace the binding in place if the key is present,
otherwise append it. -/
def dictSet (d : List (String × String)) (k v : String) : List (String × String) :=
  match d with
  | [] => [(k, v)]
  | (k2, v2) :: rest => if k2 = k then (k, v) :: rest else (k2, v2) :: dictSet rest k v

/-- JSON documents, at the structural level. Serialization to bytes by
Python `json.dumps` is modelled as the identity on this structured value:
no claim depends on the character-level rendering. -/
inductive Json where
  | str (s : String)
  | arr (elems : List Json)
  | obj (fields : List (String × Json))
  | null
deriving Repr

/-- Exceptions the embedded code can raise. `external` stands for an
exception propagating out of a call into an external collaborator. -/
inductive PyError where
  | valueError (msg : String)
  | keyError (key : String)
  | external (msg : String)
deriving Repr, DecidableEq

/-! Source constants (`swe.py` lines 34 to 35, and `composio_coders.constants`). -/

/-- Source constant `AGENT_LOGS_JSON_PATH` (`swe.py` line 35). -/
def AGENT_LOGS_JSON_PATH : String := "agent_logs.json"

/-- Modelled from the spec: `KEY_MODEL_ENV` is imported from
`composio_coders.constants`, whose source is not in the repository snapshot.
The demo block of `swe.py` passes the key as the literal `"model_env"`. -/
def KEY_MODEL_ENV : String := "model_env"

/-- Modelled from the spec: `MODEL_ENV_OPENAI` is imported from
`composio_coders.constants` (not in the snapshot); the spec names the two
recognized LLM-environment values as `openai` and `azure`, and the demo block
of `swe.py` uses `"openai"`. -/
def MODEL_ENV_OPENAI : String := "openai"

/-- Modelled from the spec: `MODEL_ENV_AZURE` is imported from
`composio_coders.constants` (not in the snapshot); the spec names the two
recognized LLM-environment values as `openai` and `azure`. -/
def MODEL_ENV_AZURE : String := "azure"

/-- Modelled from the spec: `KEY_AZURE_ENDPOINT` is imported from
`composio_coders.constants` (not in the snapshot); the demo block of `swe.py`
uses the literal key `"azure_endpoint"`. -/
def KEY_AZURE_ENDPOINT : String := "azure_endpoint"

/-- Modelled from the spec: `KEY_API_KEY` is imported from
`composio_coders.constants` (not in the snapshot); the spec describes it as
the credential key of the model-environment mapping. -/
def KEY_API_KEY : String := "api_key"

/-! Session log model (`CoderAgent.add_in_logs`, `swe.py` lines 131 to 158). -/

/-- First component of a tuple inside a list-shaped step output: either a
`langchain_core.agents.AgentAction` (carrying its `.json()` rendering) or a
value of some other type. -/
inductive StepTupleFirst where
  | agentAction (json : String)
  | notAction
deriving Repr, DecidableEq

/-- One tuple of a list-shaped step output. `second` is the tool output when
the tuple has length at least two, and `none` when it has length one
(`swe.py` lines 145 to 149). -/
structure StepTuple where
  first : StepTupleFirst
  second : Option String
deriving Repr, DecidableEq

/-- The `step_output` argument of `add_in_logs`: a
`langchain_core.agents.AgentFinish` (with its `return_values` mapping), a
Python list of tuples (possibly empty), or a value of any other type. -/
inductive StepOutput where
  | agentFinish (return_values : Json)
  | stepList (tuples : List StepTuple)
  | other
deriving Repr

/-- One record of the in-memory session log `CoderAgent.current_logs`:
either the dict appended for an `AgentFinish` (`swe.py` lines 133 to 138) or
the dict appended for an `AgentAction` tuple (lines 150 to 152). -/
inductive LogEntry where
  | agentFinish (agent_output : Json)
  | agentStep (agent_action : String) (tool_output : Option String)
deriving Repr

/-- `CoderAgent.add_in_logs` (`swe.py` lines 131 to 158), as a pure function
from the current log and the step output to the new log. An `AgentFinish`
appends one finish record; a nonempty list whose first tuple starts with an
`AgentAction` appends one step record; every other shape only emits a
diagnostic log line (not modelled) and leaves the session log unchanged. -/
def add_in_logs (logs : List LogEntry) (step : StepOutput) : List LogEntry :=
  match step with
  | .agentFinish rv => logs ++ [.agentFinish rv]
  | .stepList (⟨.agentAction j, tool_out⟩ :: _) => logs ++ [.agentStep j tool_out]
  | .stepList (⟨.notAction, _⟩ :: _) => logs
  | .stepList [] => logs
  | .other => logs

/-- The record that one `add_in_logs` invocation appends for a given step
output, if any. -/
def recordOf (step : StepOutput) : Option LogEntry :=
  match step with
  | .agentFinish rv => some (.agentFinish rv)
  | .stepList (⟨.agentAction j, tool_out⟩ :: _) => some (.agentStep j tool_out)
  | .stepList (⟨.notAction, _⟩ :: _) => none
  | .stepList [] => none
  | .other => none

/-! Response normalizer (imported by `edit_cmd.py` line 7). -/

/-- Modelled from the spec: `process_output` lives in
`composio.local_tools.local_workspace.commons.utils`, which is not in the
repository snapshot; `edit_cmd.py` only imports it. Per the spec, section 4.1:
pass `return_code` through unchanged; return `output` unchanged unless it is
empty, in which case a sentinel "no output" string is substituted. -/
def process_output (output : String) (return_code : Int) : String × Int :=
  (if output = "" then "no output" else output, return_code)

/-! EditFile command construction (`edit_cmd.py` lines 16 to 63). -/

/-- `EditFileRequest` (`edit_cmd.py` lines 16 to 26): 1-based inclusive line
bounds and the literal replacement text. -/
structure EditFileRequest where
  start_line : Int
  end_line : Int
  replacement_text : String
deriving Repr, DecidableEq

/-- The heredoc-style sentinel marker used by the edit command
(`edit_cmd.py` line 55). -/
def edit_sentinel : String := "end_of_edit"

/-- The `full_command` f-string built by `EditFile.execute`
(`edit_cmd.py` line 55). -/
def edit_full_command (r : EditFileRequest) : String :=
  "edit " ++ toString r.start_line ++ ":" ++ toString r.end_line ++
    " << end_of_edit\n" ++ r.replacement_text ++ "\nend_of_edit"

/-- `BaseCmdResponse` as used by `EditFile.execute`
(`edit_cmd.py` lines 56 to 59). -/
structure BaseCmdResponse where
  output : String
  return_code : Int
deriving Repr, DecidableEq

/-- The tail of `EditFile.execute` (`edit_cmd.py` lines 56 to 63): submit the
command over the workspace channel (modelled as an explicit function argument)
and normalize the raw response into the returned `BaseResponse`. -/
def editFileExecute (communicate : String → BaseCmdResponse)
    (r : EditFileRequest) : BaseCmdResponse :=
  let workspace_response := communicate (edit_full_command r)
  let normalized := process_output workspace_response.output workspace_response.return_code
  { output := normalized.1, return_code := normalized.2 }

/-! LLM selection (`CoderAgent.get_llm`, `swe.py` lines 160 to 179). -/

/-- The LLM client value constructed by `get_llm`: either a
`langchain_openai.ChatOpenAI` or a `langchain_openai.AzureChatOpenAI`,
recorded with the constructor arguments the source passes (the `callbacks`
argument is always `None` in `run` and is omitted). -/
inductive LLMClient where
  | chatOpenAI (model : String) (api_key : Option String)
  | azureChatOpenAI (azure_endpoint : Option String) (api_key : Option String)
      (model : String) (model_version : String) (api_version : String)
deriving Repr, DecidableEq

/-- `CoderAgent.get_llm` (`swe.py` lines 160 to 179). `modelEnv` is
`self.model_env` and `osEnviron` is the process environment `os.environ`.
The OpenAI branch reads the key from the environment variable literally named
`"OPANAI_API_KEY"` (line 163, sic). The Azure branch reads the endpoint and
key with `.get`, then indexes the mapping with `[]` while exporting them into
`os.environ` (lines 168 to 169), which raises a `KeyError` when a key is
absent; the possibly updated environment is returned alongside the client.
An unrecognized (or absent) model-environment value raises a `ValueError`
(line 179; the source message interpolates the whole mapping, modelled here
by the fixed prefix of that message). -/
def get_llm (modelEnv osEnviron : List (String × String)) :
    Except PyError (LLMClient × List (String × String)) :=
  let model_env := dictGet modelEnv KEY_MODEL_ENV
  if model_env = some MODEL_ENV_OPENAI then
    let openai_key := dictGet osEnviron "OPANAI_API_KEY"
    .ok (.chatOpenAI "gpt-4-turbo" openai_key, osEnviron)
  else if model_env = some MODEL_ENV_AZURE then
    let azure_endpoint := dictGet modelEnv KEY_AZURE_ENDPOINT
    let azure_key := dictGet modelEnv KEY_API_KEY
    match dictGet modelEnv KEY_AZURE_ENDPOINT with
    | none => .error (.keyError KEY_AZURE_ENDPOINT)
    | some ep =>
      match dictGet modelEnv KEY_API_KEY with
      | none => .error (.keyError KEY_API_KEY)
      | some key =>
        let environ2 := dictSet (dictSet osEnviron "AZURE_OPENAI_ENDPOINT" ep)
          "AZURE_OPENAI_API_KEY" key
        .ok (.azureChatOpenAI azure_endpoint azure_key "test" "1106-Preview"
          "2024-02-01", environ2)
  else .error (.valueError "Invalid model environment")

/-! CoderAgent construction (`swe.py` lines 51 to 124). -/

/-- `IssueConfig` (from `composio_coders.config_store`) as consumed by
`swe.py`: `issue_id` is `Option` so that both a missing identifier (`None`)
and an empty one are representable, matching the truthiness test on line 86. -/
structure IssueConfig where
  repo_name : String
  issue_id : Option String
  base_commit_id : String
  issue_desc : String
deriving Repr, DecidableEq

/-- `CoderAgentArgs` (`swe.py` lines 51 to 76), with the prompt-template
defaults left abstract (they come from `composio_coders.prompts`, outside the
snapshot) and `agent_logs_dir` as a path string. -/
structure CoderAgentArgs where
  agent_role : String
  agent_goal : String
  task_expected_output : String
  agent_backstory_tmpl : String
  issue_description_tmpl : String
  issue_config : IssueConfig
  model_env_config : List (String × String)
  agent_logs_dir : String
  is_benchmark : Bool
deriving Repr

/-- The fields of a constructed `CoderAgent` that the embedded methods read
(`swe.py` lines 80 to 119). `task_output_logs` is the log-file path fixed at
construction time. -/
structure CoderAgentState where
  agent_role : String
  agent_goal : String
  expected_output : String
  agent_backstory_tmpl : String
  issue_description_tmpl : String
  issue_config : IssueConfig
  repo_name : String
  model_env : List (String × String)
  task_output_logs : String
  agent_logs : List (String × List LogEntry)
  current_logs : List LogEntry
  is_benchmark : Bool
deriving Repr

/-- External calls made during `CoderAgent.__init__`
(`swe.py` lines 90 to 102 and 121 to 124). -/
inductive InitEvent where
  | toolsetInit
  | getTools
  | composioClientInit
  | entityLookup (name : String)
deriving Repr, DecidableEq

/-- Python truthiness of `issue_config.issue_id`: falsy when missing or
empty (`swe.py` line 86). -/
def issueIdFalsy (issue_id : Option String) : Bool :=
  match issue_id with
  | none => true
  | some s => s = ""

/-- `CoderAgent.__init__` (`swe.py` lines 80 to 119), with the
construction-time timestamp string (`datetime.datetime.now().strftime`,
line 115) passed in explicitly. Returns the constructed state (or the raised
error) together with the list of external calls made, in order. The missing
issue identifier is rejected on line 86, before the toolset, Composio client
and entity lookups of lines 90 to 102; the `/` of `pathlib` joins the log
directory and the timestamped file name. -/
def coderAgentInit (args : CoderAgentArgs) (timestamp : String) :
    Except PyError CoderAgentState × List InitEvent :=
  if issueIdFalsy args.issue_config.issue_id then
    (.error (.valueError "no git-issue configuration is found"), [])
  else
    (.ok
      { agent_role := args.agent_role
        agent_goal := args.agent_goal
        expected_output := args.task_expected_output
        agent_backstory_tmpl := args.agent_backstory_tmpl
        issue_description_tmpl := args.issue_description_tmpl
        issue_config := args.issue_config
        repo_name := args.issue_config.repo_name
        model_env := args.model_env_config
        task_output_logs :=
          args.agent_logs_dir ++ "/" ++ (AGENT_LOGS_JSON_PATH ++ timestamp)
        agent_logs := []
        current_logs := []
        is_benchmark := args.is_benchmark },
     [InitEvent.toolsetInit, InitEvent.getTools, InitEvent.composioClientInit,
      InitEvent.entityLookup "swe-agent", InitEvent.composioClientInit,
      InitEvent.entityLookup "SWE-Agent-Client"])

/-! History persistence (`CoderAgent.save_history`, `swe.py` lines 126 to 129). -/

/-- JSON rendering of one session-log record, following the dict shapes built
in `add_in_logs`. -/
def logEntryJson (e : LogEntry) : Json :=
  match e with
  | .agentFinish out => .obj [("agent_action", .str "agent_finish"), ("agent_output", out)]
  | .agentStep action tool_out =>
      .obj [("agent_action", .str action),
            ("tool_output", match tool_out with | some s => .str s | none => .null)]

/-- JSON rendering of a whole ordered session log. -/
def logsJson (logs : List LogEntry) : Json :=
  .arr (logs.map logEntryJson)

/-- JSON rendering of the `agent_logs` mapping written by `save_history`. -/
def agentLogsJson (d : List (String × List LogEntry)) : Json :=
  .obj (d.map fun kv => (kv.1, logsJson kv.2))

/-- Python dict assignment for `agent_logs`, keeping insertion order. -/
def logsDictSet (d : List (String × List LogEntry)) (k : String)
    (v : List LogEntry) : List (String × List LogEntry) :=
  match d with
  | [] => [(k, v)]
  | (k2, v2) :: rest => if k2 = k then (k, v) :: rest else (k2, v2) :: logsDictSet rest k v

/-- One file written to disk: path, structured JSON content, and the text
encoding the file is opened with. -/
structure FileWrite where
  path : String
  content : Json
  encoding : String
deriving Repr

/-- `CoderAgent.save_history` (`swe.py` lines 126 to 129): store the current
session log under the instance identifier and write the whole `agent_logs`
mapping as JSON, UTF-8 encoded, to the construction-time path. -/
def save_history (st : CoderAgentState) (instance_id : String) :
    CoderAgentState × FileWrite :=
  let newLogs := logsDictSet st.agent_logs instance_id st.current_logs
  ({ st with agent_logs := newLogs },
   { path := st.task_output_logs
     content := agentLogsJson newLogs
     encoding := "utf-8" })

/-! Run orchestrator (`CoderAgent.run`, `swe.py` lines 181 to 272). -/

/-- Python `str.format` restricted to one named field: every occurrence of
the braced field name in the template is replaced by the value. The prompt
templates (from `composio_coders.prompts`, outside the snapshot) are opaque
strings here, so this sequential per-field substitution stands in for the
simultaneous substitution `str.format` performs. -/
def pyFormatField (tmpl field value : String) : String :=
  tmpl.replace ("\x7b" ++ field ++ "\x7d") value

/-- The expression `"/" + self.repo_name.split("/")[-1].strip()` of
`swe.py` lines 206 and 211. -/
def repoNameDir (repo_name : String) : String :=
  "/" ++ (((repo_name.splitOn "/").getLast?).getD "").trim

/-- `issue_added_instruction` (`swe.py` lines 203 to 207): the issue
description template with the issue, issue id and repository directory
substituted. -/
def issue_added_instruction (st : CoderAgentState) : String :=
  pyFormatField
    (pyFormatField
      (pyFormatField st.issue_description_tmpl "issue" st.issue_config.issue_desc)
      "issue_id" (st.issue_config.issue_id.getD ""))
    "repo_name_dir" (repoNameDir st.repo_name)

/-- `backstory_added_instruction` (`swe.py` lines 208 to 213): the backstory
template with the workspace id, repository name, repository directory and
base commit substituted. -/
def backstory_added_instruction (st : CoderAgentState) (workspace_id : String) : String :=
  pyFormatField
    (pyFormatField
      (pyFormatField
        (pyFormatField st.agent_backstory_tmpl "workspace_id" workspace_id)
        "repo_name" st.repo_name)
      "repo_name_dir" (repoNameDir st.repo_name))
    "base_commit" st.issue_config.base_commit_id

/-- A `crewai.Agent` as constructed in `run`, recording the argument values
the source passes. `cache` and `allow_delegation` are `Option` because each
is passed for only one of the two agents; `has_step_callback` records that
`step_callback=self.add_in_logs` was passed. The `tools` and `callbacks`
arguments (the same toolset and `None` for both agents) are omitted. -/
structure Agent where
  role : String
  goal : String
  backstory : String
  verbose : Bool
  llm : LLMClient
  memory : Bool
  cache : Option Bool
  allow_delegation : Option Bool
  has_step_callback : Bool
deriving Repr, DecidableEq

/-- A `crewai.Task` as constructed in `run`. The `agent` argument is
recorded by the agent's role, and the `context` list by the descriptions of
the tasks it contains. -/
structure CrewTask where
  description : String
  agent_role : String
  expected_output : String
  context_descriptions : List String
deriving Repr, DecidableEq

/-- The `crewai.Crew` constructed in `run` (`swe.py` lines 263 to 267). -/
structure CrewSpec where
  agents : List Agent
  tasks : List CrewTask
  memory : Bool
deriving Repr, DecidableEq

/-- The role string of the reviewer agent (`swe.py` line 236). -/
def reviewer_role : String :=
  "You are the best reviewer. You think carefully and step by step take action."

/-- The goal string of the reviewer agent (`swe.py` line 237). -/
def reviewer_goal : String :=
  "Review the patch and make sure it fixes the issue."

/-- The backstory of the reviewer agent (`swe.py` lines 238 to 246), the
concatenation of the adjacent string literals of the source. -/
def reviewer_backstory : String :=
  "An AI Agent tries to solve an issue and submits a patch to the repo. " ++
  "You can assume the AI agent operates as a junior developer and has limited knowledge of the codebase." ++
  "It\x27s your job to review the patch and make sure it fixes the issue." ++
  "The patch might be incomplete. In that case point out the missing parts and ask the AI agent to add them." ++
  "The patch might have some compilation issues/typo. Point out those and ask the AI agent to fix them." ++
  "The patch might have some logical issues. Point out those and ask the AI agent to fix them." ++
  "Once the patch is ready, approve it and ask the AI agent to submit it." ++
  "It is fine to have multiple iterations of the review. Keep iterating until the patch is ready to be submitted." ++
  "The are the best reviewer. You think carefully and step by step take action."

/-- The description of the review task (`swe.py` line 257). -/
def review_task_description : String :=
  "Review the patch and make sure it fixes the issue."

/-- The expected output of the review task (`swe.py` line 260). -/
def review_task_expected_output : String :=
  "The patch is ready to be submitted to the repo."

/-- The `swe_agent` constructed in `run` (`swe.py` lines 216 to 227). -/
def swe_agent (st : CoderAgentState) (llm : LLMClient) (workspace_id : String) : Agent :=
  { role := st.agent_role
    goal := st.agent_goal
    backstory := backstory_added_instruction st workspace_id
    verbose := true
    llm := llm
    memory := true
    cache := some false
    allow_delegation := none
    has_step_callback := true }

/-- The `coding_task` constructed in `run` (`swe.py` lines 229 to 233). -/
def coding_task (st : CoderAgentState) : CrewTask :=
  { description := issue_added_instruction st
    agent_role := st.agent_role
    expected_output := st.expected_output
    context_descriptions := [] }

/-- The `reviewer_agent` constructed in `run` (`swe.py` lines 235 to 254). -/
def reviewer_agent (_st : CoderAgentState) (llm : LLMClient) : Agent :=
  { role := reviewer_role
    goal := reviewer_goal
    backstory := reviewer_backstory
    verbose := true
    llm := llm
    memory := true
    cache := none
    allow_delegation := some true
    has_step_callback := true }

/-- The `review_task` constructed in `run` (`swe.py` lines 256 to 261), whose
`context` is the singleton list holding `coding_task`. -/
def review_task (st : CoderAgentState) : CrewTask :=
  { description := review_task_description
    agent_role := reviewer_role
    expected_output := review_task_expected_output
    context_descriptions := [(coding_task st).description] }

/-- The `crew` constructed in `run` (`swe.py` lines 263 to 267): only the
coder agent and the coding task are passed. -/
def crewOf (st : CoderAgentState) (llm : LLMClient) (workspace_id : String) : CrewSpec :=
  { agents := [swe_agent st llm workspace_id]
    tasks := [coding_task st]
    memory := true }

/-- Externally observable steps of a run: external calls, object
constructions and file writes, in program order. -/
inductive Event where
  | createWorkspaceCall
  | cloneCall (workspace_id : String) (repo_name : String) (branch_name : String)
  | constructAgent (a : Agent)
  | constructTask (t : CrewTask)
  | constructCrew (c : CrewSpec)
  | kickoffCall (c : CrewSpec)
  | fileWrite (w : FileWrite)
deriving Repr

/-- Results supplied by the external collaborators of `run`: the process
environment, the workspace-creation call, the clone call, and the crew
execution. A successful `kickoff` carries the sequence of step outputs the
crew engine feeds to the `step_callback` (`add_in_logs`), in order; an
`error` value models the call raising. -/
structure ExtEnv where
  os_environ : List (String × String)
  create_workspace_result : Except String String
  git_clone_result : Except String String
  kickoff_result : Except String (List StepOutput)

/-- The construction events of `run` between the clone call and the crew
execution (`swe.py` lines 216 to 269): coder agent, coding task, reviewer
agent, review task, crew, then the `kickoff` call on that crew. -/
def constructionEvents (st : CoderAgentState) (llm : LLMClient)
    (workspace_id : String) : List Event :=
  [Event.constructAgent (swe_agent st llm workspace_id),
   Event.constructTask (coding_task st),
   Event.constructAgent (reviewer_agent st llm),
   Event.constructTask (review_task st),
   Event.constructCrew (crewOf st llm workspace_id),
   Event.kickoffCall (crewOf st llm workspace_id)]

/-- `CoderAgent.run` (`swe.py` lines 181 to 272): select the LLM, create the
workspace, clone the repository at the configured base commit, construct both
agents and both tasks, execute the crew built from the coder agent and coding
task only, fold the crew's step outputs through `add_in_logs`, and save the
session history. Every external failure short-circuits with the raised error
and the trace collected so far; the `is_benchmark` tracking branches of the
source are commented out and do not appear. -/
def run (st : CoderAgentState) (env : ExtEnv) :
    Except PyError Unit × List Event × CoderAgentState :=
  match get_llm st.model_env env.os_environ with
  | .error e => (.error e, [], st)
  | .ok (llm, _environ2) =>
    match env.create_workspace_result with
    | .error e => (.error (.external e), [Event.createWorkspaceCall], st)
    | .ok workspace_id =>
      match env.git_clone_result with
      | .error e =>
          (.error (.external e),
           [Event.createWorkspaceCall,
            Event.cloneCall workspace_id st.issue_config.repo_name
              st.issue_config.base_commit_id], st)
      | .ok _git_clone_response =>
        let evs :=
          Event.createWorkspaceCall ::
          Event.cloneCall workspace_id st.issue_config.repo_name
            st.issue_config.base_commit_id ::
          constructionEvents st llm workspace_id
        match env.kickoff_result with
        | .error e => (.error (.external e), evs, st)
        | .ok steps =>
          let st1 := { st with
            current_logs := List.foldl add_in_logs st.current_logs steps }
          let saved := save_history st1 (st.issue_config.issue_id.getD "")
          (.ok (), evs ++ [Event.fileWrite saved.2], saved.1)

/-- The files written during a trace, in order. -/
def savedFiles (evs : List Event) : List FileWrite :=
  evs.filterMap fun e => match e with
    | .fileWrite w => some w
    | _ => none

/-- The crews passed to `kickoff` during a trace, in order. -/
def kickoffCrews (evs : List Event) : List CrewSpec :=
  evs.filterMap fun e => match e with
    | .kickoffCall c => some c
    | _ => none

/-- Number of workspace-create calls in a trace. -/
def workspaceCreateCalls (evs : List Event) : Nat :=
  (evs.filter fun e => match e with
    | .createWorkspaceCall => true
    | _ => false).length

/-- Number of repository-clone calls in a trace. -/
def cloneCalls (evs : List Event) : Nat :=
  (evs.filter fun e => match e with
    | .cloneCall _ _ _ => true
    | _ => false).length

/-! Theorems. -/

/-- Each `add_in_logs` invocation appends exactly the optional record
`recordOf` computes for its step output. -/
theorem add_in_logs_eq_record (logs : List LogEntry) (s : StepOutput) :
    add_in_logs logs s = logs ++ (recordOf s).toList := by
  cases s with
  | agentFinish rv => rfl
  | other => simp [add_in_logs, recordOf]
  | stepList ts =>
    match ts with
    | [] => simp [add_in_logs, recordOf]
    | ⟨.agentAction j, t⟩ :: rest => rfl
    | ⟨.notAction, t⟩ :: rest => simp [add_in_logs, recordOf]

/-- Folding `add_in_logs` over a sequence of step outputs appends their
records in call order. -/
theorem foldl_add_in_logs (steps : List StepOutput) (init : List LogEntry) :
    List.foldl add_in_logs init steps = init ++ steps.filterMap recordOf := by
  induction steps generalizing init with
  | nil => simp
  | cons s rest ih =>
    rw [List.foldl_cons, add_in_logs_eq_record, ih]
    cases h : recordOf s <;> simp [h]

/-- When every step output in a sequence is recordable, no record is
dropped. -/
theorem filterMap_recordOf_length (steps : List StepOutput)
    (h : ∀ s ∈ steps, (recordOf s).isSome = true) :
    (steps.filterMap recordOf).length = steps.length := by
  induction steps with
  | nil => rfl
  | cons s rest ih =>
    have hs := h s (List.mem_cons_self s rest)
    cases hr : recordOf s with
    | none => rw [hr] at hs; cases hs
    | some e =>
      simp only [List.filterMap_cons, hr, List.length_cons]
      rw [ih fun x hx => h x (List.mem_cons_of_mem _ hx)]

/-- C1, counterexample: a single step-callback invocation whose step output
is an empty list appends nothing to `CoderAgent.current_logs`, so after
N = 1 sequential invocations the session log holds 0 entries, not 1. -/
theorem add_in_logs_unrecognized_counterexample :
    (List.foldl add_in_logs [] [StepOutput.stepList []]).length = 0 := rfl

/-- C1, amended: after N sequential `add_in_logs` invocations for a session,
the session log consists of exactly the records of those invocations whose
step output is an `AgentFinish` or a nonempty list headed by an
`AgentAction` tuple, in strict call order; every invocation appends at most
one entry, and when all N step outputs are of a recorded shape the log holds
exactly N entries. -/
theorem add_in_logs_append_order (init : List LogEntry) (steps : List StepOutput) :
    List.foldl add_in_logs init steps = init ++ steps.filterMap recordOf ∧
    (steps.filterMap recordOf).length ≤ steps.length ∧
    ((∀ s ∈ steps, (recordOf s).isSome = true) →
      (List.foldl add_in_logs init steps).length = init.length + steps.length) := by
  refine ⟨foldl_add_in_logs steps init, List.length_filterMap_le recordOf steps, ?_⟩
  intro h
  rw [foldl_add_in_logs steps init, List.length_append,
    filterMap_recordOf_length steps h]

/-- C1, witness: two recorded invocations leave exactly two entries. -/
theorem add_in_logs_append_order_witness :
    (List.foldl add_in_logs []
      [StepOutput.agentFinish Json.null,
       StepOutput.stepList [⟨StepTupleFirst.agentAction "act", some "out"⟩]]).length = 2 :=
  (add_in_logs_append_order []
    [StepOutput.agentFinish Json.null,
     StepOutput.stepList [⟨StepTupleFirst.agentAction "act", some "out"⟩]]).2.2
    (by decide)

/-- C3: for every `EditFile` request, the constructed command string contains
the literal decimal `start_line` and `end_line` values and contains
`replacement_text` verbatim, delimited between a pair of matching
`end_of_edit` sentinel markers. -/
theorem edit_full_command_embeds_request (r : EditFileRequest) :
    (∃ a b, edit_full_command r = a ++ toString r.start_line ++ b) ∧
    (∃ a b, edit_full_command r = a ++ toString r.end_line ++ b) ∧
    (∃ pre, edit_full_command r =
      pre ++ edit_sentinel ++ "\n" ++ r.replacement_text ++ "\n" ++ edit_sentinel) := by
  refine ⟨⟨"edit ", ":" ++ toString r.end_line ++ " << end_of_edit\n" ++
      r.replacement_text ++ "\nend_of_edit", ?_⟩,
    ⟨"edit " ++ toString r.start_line ++ ":", " << end_of_edit\n" ++
      r.replacement_text ++ "\nend_of_edit", ?_⟩,
    ⟨"edit " ++ toString r.start_line ++ ":" ++ toString r.end_line ++ " << ", ?_⟩⟩
  all_goals simp only [edit_full_command, edit_sentinel, String.append_assoc]
  all_goals rfl

/-- C6: the response normalizer passes `return_code` through unchanged and
preserves nonempty output verbatim; only empty output is replaced by the
sentinel string. -/
theorem process_output_passthrough (output : String) (return_code : Int) :
    (process_output output return_code).2 = return_code ∧
    (output ≠ "" → (process_output output return_code).1 = output) ∧
    (output = "" → (process_output output return_code).1 = "no output") := by
  refine ⟨rfl, ?_, ?_⟩ <;> intro h <;> simp [process_output, h]

/-- C6, witness: a failing response keeps its diagnostic output and code. -/
theorem process_output_passthrough_witness :
    (process_output "SyntaxError: invalid" 2).2 = 2 ∧
    (process_output "SyntaxError: invalid" 2).1 = "SyntaxError: invalid" :=
  ⟨(process_output_passthrough "SyntaxError: invalid" 2).1,
   (process_output_passthrough "SyntaxError: invalid" 2).2.1 (by decide)⟩

/-- C4, counterexample: with the recognized value `azure` selected but no
azure endpoint in the mapping, `get_llm` raises a `KeyError` instead of
constructing the Azure backend client. -/
theorem get_llm_azure_missing_endpoint_counterexample :
    get_llm [(KEY_MODEL_ENV, MODEL_ENV_AZURE)] [] =
      .error (.keyError KEY_AZURE_ENDPOINT) := rfl

/-- C4, amended: a model-environment key equal to neither recognized value
raises a `ValueError` and constructs no LLM client; the value `openai`
always constructs the OpenAI client; the value `azure` constructs the Azure
client provided the mapping supplies the azure endpoint and API key
(otherwise indexing the mapping raises a `KeyError`). -/
theorem get_llm_selection (modelEnv osEnviron : List (String × String)) :
    ((dictGet modelEnv KEY_MODEL_ENV ≠ some MODEL_ENV_OPENAI ∧
      dictGet modelEnv KEY_MODEL_ENV ≠ some MODEL_ENV_AZURE) →
      get_llm modelEnv osEnviron = .error (.valueError "Invalid model environment")) ∧
    (dictGet modelEnv KEY_MODEL_ENV = some MODEL_ENV_OPENAI →
      get_llm modelEnv osEnviron =
        .ok (.chatOpenAI "gpt-4-turbo" (dictGet osEnviron "OPANAI_API_KEY"), osEnviron)) ∧
    (∀ ep key, dictGet modelEnv KEY_MODEL_ENV = some MODEL_ENV_AZURE →
      dictGet modelEnv KEY_AZURE_ENDPOINT = some ep →
      dictGet modelEnv KEY_API_KEY = some key →
      get_llm modelEnv osEnviron =
        .ok (.azureChatOpenAI (some ep) (some key) "test" "1106-Preview" "2024-02-01",
          dictSet (dictSet osEnviron "AZURE_OPENAI_ENDPOINT" ep)
            "AZURE_OPENAI_API_KEY" key)) := by
  refine ⟨fun h => ?_, fun h => ?_, fun ep key h1 h2 h3 => ?_⟩
  · simp [get_llm, h.1, h.2]
  · simp [get_llm, h]
  · simp [get_llm, h1, h2, h3, MODEL_ENV_OPENAI, MODEL_ENV_AZURE]

/-- C4, witness: one unrecognized value and both recognized values, on
concrete mappings. -/
theorem get_llm_selection_witness :
    get_llm [("model_env", "gemini")] [] =
      .error (.valueError "Invalid model environment") ∧
    get_llm [("model_env", "openai")] [("OPANAI_API_KEY", "sk-1")] =
      .ok (.chatOpenAI "gpt-4-turbo" (some "sk-1"), [("OPANAI_API_KEY", "sk-1")]) ∧
    get_llm [("model_env", "azure"), ("azure_endpoint", "https://e"), ("api_key", "k")] [] =
      .ok (.azureChatOpenAI (some "https://e") (some "k") "test" "1106-Preview"
        "2024-02-01", [("AZURE_OPENAI_ENDPOINT", "https://e"), ("AZURE_OPENAI_API_KEY", "k")]) :=
  ⟨(get_llm_selection [("model_env", "gemini")] []).1 (by decide),
   (get_llm_selection [("model_env", "openai")] [("OPANAI_API_KEY", "sk-1")]).2.1 (by decide),
   (get_llm_selection [("model_env", "azure"), ("azure_endpoint", "https://e"),
      ("api_key", "k")] []).2.2 "https://e" "k" (by decide) (by decide) (by decide)⟩

/-- C10: when the OpenAI backend is selected, `get_llm` takes the API key
exclusively from the process environment variable literally named
`OPANAI_API_KEY`: the result is determined by the process environment alone
(any `api_key` entry of the model-env mapping is ignored), and absence of
the variable raises no error, the key passed to the client being `None`. -/
theorem get_llm_openai_env_key (modelEnv osEnviron : List (String × String))
    (h : dictGet modelEnv KEY_MODEL_ENV = some MODEL_ENV_OPENAI) :
    get_llm modelEnv osEnviron =
      .ok (.chatOpenAI "gpt-4-turbo" (dictGet osEnviron "OPANAI_API_KEY"), osEnviron) ∧
    (∀ modelEnv2, dictGet modelEnv2 KEY_MODEL_ENV = some MODEL_ENV_OPENAI →
      get_llm modelEnv2 osEnviron = get_llm modelEnv osEnviron) ∧
    (dictGet osEnviron "OPANAI_API_KEY" = none →
      get_llm modelEnv osEnviron = .ok (.chatOpenAI "gpt-4-turbo" none, osEnviron)) := by
  refine ⟨by simp [get_llm, h], fun modelEnv2 h2 => by simp [get_llm, h, h2], fun hk => ?_⟩
  simp [get_llm, h, hk]

/-- C10, witness: an `api_key` entry in the model-env mapping is ignored and
an absent `OPANAI_API_KEY` variable yields a client with no key. -/
theorem get_llm_openai_env_key_witness :
    get_llm [("model_env", "openai"), ("api_key", "configured-key")] [] =
      .ok (.chatOpenAI "gpt-4-turbo" none, []) :=
  (get_llm_openai_env_key [("model_env", "openai"), ("api_key", "configured-key")] []
    (by decide)).1

/-- C5: constructing a `CoderAgent` whose issue config has a missing or
empty issue identifier raises a `ValueError` while the external-call trace
is still empty: the toolset, Composio client and entity lookups are never
reached. -/
theorem coder_agent_init_requires_issue_id (args : CoderAgentArgs) (timestamp : String)
    (h : args.issue_config.issue_id = none ∨ args.issue_config.issue_id = some "") :
    coderAgentInit args timestamp =
      (.error (.valueError "no git-issue configuration is found"), []) := by
  rcases h with h | h <;> simp [coderAgentInit, issueIdFalsy, h]

/-- Issue configuration of the demonstration scenario of the spec. -/
def exampleIssueConfig : IssueConfig :=
  { repo_name := "ComposioHQ/composio"
    issue_id := some "123"
    base_commit_id := "main"
    issue_desc := "fix crash" }

/-- Concrete constructor arguments used to instantiate the run theorems. -/
def exampleArgs : CoderAgentArgs :=
  { agent_role := "swe-coder"
    agent_goal := "fix the issue"
    task_expected_output := "a patch"
    agent_backstory_tmpl := "workspace \x7bworkspace_id\x7d of \x7brepo_name\x7d"
    issue_description_tmpl := "solve \x7bissue\x7d (\x7bissue_id\x7d) in \x7brepo_name_dir\x7d"
    issue_config := exampleIssueConfig
    model_env_config := [("model_env", "openai")]
    agent_logs_dir := "/tmp/agent_logs"
    is_benchmark := false }

/-- The same arguments with the issue identifier missing. -/
def exampleArgsNoIssue : CoderAgentArgs :=
  { exampleArgs with issue_config := { exampleIssueConfig with issue_id := none } }

/-- C5, witness: constructing from arguments without an issue identifier. -/
theorem coder_agent_init_requires_issue_id_witness :
    coderAgentInit exampleArgsNoIssue "06_01_2024_12_00_00" =
      (.error (.valueError "no git-issue configuration is found"), []) :=
  coder_agent_init_requires_issue_id exampleArgsNoIssue "06_01_2024_12_00_00" (Or.inl rfl)

/-- Characterization of `run` when LLM selection raises. -/
theorem run_llm_error (st : CoderAgentState) (env : ExtEnv) (e : PyError)
    (hg : get_llm st.model_env env.os_environ = .error e) :
    run st env = (.error e, [], st) := by
  simp [run, hg]

/-- Characterization of `run` when the workspace-create call raises. -/
theorem run_create_error (st : CoderAgentState) (env : ExtEnv)
    (llm : LLMClient) (environ2 : List (String × String)) (msg : String)
    (hg : get_llm st.model_env env.os_environ = .ok (llm, environ2))
    (hw : env.create_workspace_result = .error msg) :
    run st env = (.error (.external msg), [Event.createWorkspaceCall], st) := by
  simp [run, hg, hw]

/-- Characterization of `run` when the clone call raises. -/
theorem run_clone_error (st : CoderAgentState) (env : ExtEnv)
    (llm : LLMClient) (environ2 : List (String × String)) (w msg : String)
    (hg : get_llm st.model_env env.os_environ = .ok (llm, environ2))
    (hw : env.create_workspace_result = .ok w)
    (hc : env.git_clone_result = .error msg) :
    run st env = (.error (.external msg),
      [Event.createWorkspaceCall,
       Event.cloneCall w st.issue_config.repo_name st.issue_config.base_commit_id],
      st) := by
  simp [run, hg, hw, hc]

/-- Characterization of `run` when the crew execution raises. -/
theorem run_kickoff_error (st : CoderAgentState) (env : ExtEnv)
    (llm : LLMClient) (environ2 : List (String × String)) (w c msg : String)
    (hg : get_llm st.model_env env.os_environ = .ok (llm, environ2))
    (hw : env.create_workspace_result = .ok w)
    (hc : env.git_clone_result = .ok c)
    (hk : env.kickoff_result = .error msg) :
    run st env = (.error (.external msg),
      Event.createWorkspaceCall ::
        Event.cloneCall w st.issue_config.repo_name st.issue_config.base_commit_id ::
        constructionEvents st llm w,
      st) := by
  simp [run, hg, hw, hc, hk]

/-- Characterization of `run` when every external call succeeds. -/
theorem run_ok (st : CoderAgentState) (env : ExtEnv)
    (llm : LLMClient) (environ2 : List (String × String)) (w c : String)
    (steps : List StepOutput)
    (hg : get_llm st.model_env env.os_environ = .ok (llm, environ2))
    (hw : env.create_workspace_result = .ok w)
    (hc : env.git_clone_result = .ok c)
    (hk : env.kickoff_result = .ok steps) :
    run st env = (.ok (),
      (Event.createWorkspaceCall ::
        Event.cloneCall w st.issue_config.repo_name st.issue_config.base_commit_id ::
        constructionEvents st llm w) ++
        [Event.fileWrite
          { path := st.task_output_logs
            content := agentLogsJson (logsDictSet st.agent_logs
              (st.issue_config.issue_id.getD "")
              (List.foldl add_in_logs st.current_logs steps))
            encoding := "utf-8" }],
      { st with
        current_logs := List.foldl add_in_logs st.current_logs steps
        agent_logs := logsDictSet st.agent_logs (st.issue_config.issue_id.getD "")
          (List.foldl add_in_logs st.current_logs steps) }) := by
  simp [run, hg, hw, hc, hk, save_history]

/-- C2: a raised error from any external call inside `run` propagates
uncaught and aborts the run with no session log file written: every erroring
run has a trace without a file write; in particular, when the clone call
fails (LLM selection and workspace creation having succeeded) the run
results in exactly that error, `save_history` is never invoked, and no file
is written. -/
theorem run_external_failure_no_save (st : CoderAgentState) (env : ExtEnv) :
    (∀ e, (run st env).1 = .error e → savedFiles (run st env).2.1 = []) ∧
    (∀ w msg llm environ2,
      get_llm st.model_env env.os_environ = .ok (llm, environ2) →
      env.create_workspace_result = .ok w →
      env.git_clone_result = .error msg →
      (run st env).1 = .error (.external msg) ∧
        savedFiles (run st env).2.1 = []) := by
  constructor
  · intro e he
    rcases hg : get_llm st.model_env env.os_environ with eg | ⟨llm, environ2⟩
    · rw [run_llm_error st env eg hg]; rfl
    · rcases hw : env.create_workspace_result with ew | w
      · rw [run_create_error st env llm environ2 ew hg hw]; rfl
      · rcases hc : env.git_clone_result with ec | c
        · rw [run_clone_error st env llm environ2 w ec hg hw hc]; rfl
        · rcases hk : env.kickoff_result with ek | steps
          · rw [run_kickoff_error st env llm environ2 w c ek hg hw hc hk]; rfl
          · rw [run_ok st env llm environ2 w c steps hg hw hc hk] at he
            cases he
  · intro w msg llm environ2 hg hw hc
    rw [run_clone_error st env llm environ2 w msg hg hw hc]
    exact ⟨rfl, rfl⟩

/-- Results of the external collaborators in the fully successful
demonstration scenario. -/
def exampleEnvOk : ExtEnv :=
  { os_environ := []
    create_workspace_result := .ok "ws-1"
    git_clone_result := .ok "cloned"
    kickoff_result := .ok [StepOutput.agentFinish (Json.str "done")] }

/-- The same scenario with the clone call raising. -/
def exampleEnvCloneFail : ExtEnv :=
  { exampleEnvOk with git_clone_result := .error "clone failed" }

/-- The state a `CoderAgent` constructed from `exampleArgs` at a fixed
timestamp holds. -/
def exampleState : CoderAgentState :=
  { agent_role := exampleArgs.agent_role
    agent_goal := exampleArgs.agent_goal
    expected_output := exampleArgs.task_expected_output
    agent_backstory_tmpl := exampleArgs.agent_backstory_tmpl
    issue_description_tmpl := exampleArgs.issue_description_tmpl
    issue_config := exampleArgs.issue_config
    repo_name := exampleArgs.issue_config.repo_name
    model_env := exampleArgs.model_env_config
    task_output_logs :=
      exampleArgs.agent_logs_dir ++ "/" ++ (AGENT_LOGS_JSON_PATH ++ "06_01_2024_12_00_00")
    agent_logs := []
    current_logs := []
    is_benchmark := exampleArgs.is_benchmark }

/-- C2, witness: with the clone call failing, the run aborts with that error
and writes no file. -/
theorem run_external_failure_no_save_witness :
    (run exampleState exampleEnvCloneFail).1 = .error (.external "clone failed") ∧
    savedFiles (run exampleState exampleEnvCloneFail).2.1 = [] :=
  (run_external_failure_no_save exampleState exampleEnvCloneFail).2 "ws-1" "clone failed"
    (LLMClient.chatOpenAI "gpt-4-turbo" none) [] rfl rfl rfl

/-- C7: a run whose LLM selection, workspace creation and clone succeed
issues the workspace-create call first, then the clone call whose branch
parameter is the configured base commit identifier, and these are the only
such calls: the remainder of the trace has no further create or clone call,
and all agent and task constructions happen in that remainder. -/
theorem run_call_order (st : CoderAgentState) (env : ExtEnv)
    (llm : LLMClient) (environ2 : List (String × String)) (w c : String)
    (hg : get_llm st.model_env env.os_environ = .ok (llm, environ2))
    (hw : env.create_workspace_result = .ok w)
    (hc : env.git_clone_result = .ok c) :
    ∃ rest,
      (run st env).2.1 =
        Event.createWorkspaceCall ::
          Event.cloneCall w st.issue_config.repo_name st.issue_config.base_commit_id ::
          rest ∧
      workspaceCreateCalls rest = 0 ∧
      cloneCalls rest = 0 ∧
      Event.constructAgent (swe_agent st llm w) ∈ rest ∧
      Event.constructTask (coding_task st) ∈ rest := by
  rcases hk : env.kickoff_result with ek | steps
  · refine ⟨constructionEvents st llm w, ?_, rfl, rfl, ?_, ?_⟩
    · rw [run_kickoff_error st env llm environ2 w c ek hg hw hc hk]
    · simp [constructionEvents]
    · simp [constructionEvents]
  · refine ⟨constructionEvents st llm w ++
      [Event.fileWrite
        { path := st.task_output_logs
          content := agentLogsJson (logsDictSet st.agent_logs
            (st.issue_config.issue_id.getD "")
            (List.foldl add_in_logs st.current_logs steps))
          encoding := "utf-8" }], ?_, rfl, rfl, ?_, ?_⟩
    · rw [run_ok st env llm environ2 w c steps hg hw hc hk]
      rfl
    · simp [constructionEvents]
    · simp [constructionEvents]

/-- C7, witness: the ordering in the fully successful demonstration run. -/
theorem run_call_order_witness :
    ∃ rest,
      (run exampleState exampleEnvOk).2.1 =
        Event.createWorkspaceCall ::
          Event.cloneCall "ws-1" exampleState.issue_config.repo_name
            exampleState.issue_config.base_commit_id :: rest ∧
      workspaceCreateCalls rest = 0 ∧
      cloneCalls rest = 0 ∧
      Event.constructAgent (swe_agent exampleState
        (LLMClient.chatOpenAI "gpt-4-turbo" none) "ws-1") ∈ rest ∧
      Event.constructTask (coding_task exampleState) ∈ rest :=
  run_call_order exampleState exampleEnvOk (LLMClient.chatOpenAI "gpt-4-turbo" none) []
    "ws-1" "cloned" rfl rfl rfl

/-- C8: a successful run of an agent constructed by `coderAgentInit`
serializes the session log exactly once: the trace holds exactly one file
write, UTF-8 encoded, whose path carries the timestamp fixed at construction
time, and whose JSON content is the mapping from the issue identifier to the
ordered step log accumulated through `add_in_logs` during the run. -/
theorem run_saves_history_once (args : CoderAgentArgs) (timestamp : String)
    (env : ExtEnv) (st : CoderAgentState) (initEvents : List InitEvent)
    (llm : LLMClient) (environ2 : List (String × String)) (w c : String)
    (steps : List StepOutput)
    (hinit : coderAgentInit args timestamp = (.ok st, initEvents))
    (hg : get_llm st.model_env env.os_environ = .ok (llm, environ2))
    (hw : env.create_workspace_result = .ok w)
    (hc : env.git_clone_result = .ok c)
    (hk : env.kickoff_result = .ok steps) :
    savedFiles (run st env).2.1 =
      [{ path := args.agent_logs_dir ++ "/" ++ (AGENT_LOGS_JSON_PATH ++ timestamp)
         content := Json.obj [(args.issue_config.issue_id.getD "",
           logsJson (List.foldl add_in_logs [] steps))]
         encoding := "utf-8" }] := by
  unfold coderAgentInit at hinit
  split at hinit
  · exact absurd hinit (by simp)
  · injection hinit with h1 h2
    injection h1 with h1
    subst h1
    rw [run_ok _ env llm environ2 w c steps hg hw hc hk]
    rfl

/-- C8, witness: the file written by the fully successful demonstration
run. -/
theorem run_saves_history_once_witness :
    savedFiles (run exampleState exampleEnvOk).2.1 =
      [{ path := "/tmp/agent_logs" ++ "/" ++ (AGENT_LOGS_JSON_PATH ++ "06_01_2024_12_00_00")
         content := Json.obj [("123",
           logsJson (List.foldl add_in_logs []
             [StepOutput.agentFinish (Json.str "done")]))]
         encoding := "utf-8" }] :=
  run_saves_history_once exampleArgs "06_01_2024_12_00_00" exampleEnvOk exampleState
    [InitEvent.toolsetInit, InitEvent.getTools, InitEvent.composioClientInit,
     InitEvent.entityLookup "swe-agent", InitEvent.composioClientInit,
     InitEvent.entityLookup "SWE-Agent-Client"]
    (LLMClient.chatOpenAI "gpt-4-turbo" none) [] "ws-1" "cloned"
    [StepOutput.agentFinish (Json.str "done")] rfl rfl rfl rfl rfl

/-- C9: in every run reaching crew construction, the reviewer agent and the
review task are constructed, yet the crew passed to `kickoff` holds exactly
one agent, the coder agent, and exactly one task, the coding task; neither
the reviewer agent nor the review task belongs to it. -/
theorem run_crew_excludes_reviewer (st : CoderAgentState) (env : ExtEnv)
    (llm : LLMClient) (environ2 : List (String × String)) (w c : String)
    (hg : get_llm st.model_env env.os_environ = .ok (llm, environ2))
    (hw : env.create_workspace_result = .ok w)
    (hc : env.git_clone_result = .ok c) :
    kickoffCrews (run st env).2.1 = [crewOf st llm w] ∧
    (crewOf st llm w).agents = [swe_agent st llm w] ∧
    (crewOf st llm w).tasks = [coding_task st] ∧
    Event.constructAgent (reviewer_agent st llm) ∈ (run st env).2.1 ∧
    Event.constructTask (review_task st) ∈ (run st env).2.1 ∧
    reviewer_agent st llm ∉ (crewOf st llm w).agents ∧
    review_task st ∉ (crewOf st llm w).tasks := by
  have hrev_ag : reviewer_agent st llm ∉ (crewOf st llm w).agents := by
    simp [crewOf, reviewer_agent, swe_agent, Agent.mk.injEq]
  have hrev_tk : review_task st ∉ (crewOf st llm w).tasks := by
    simp [crewOf, review_task, coding_task, CrewTask.mk.injEq]
  rcases hk : env.kickoff_result with ek | steps
  · rw [run_kickoff_error st env llm environ2 w c ek hg hw hc hk]
    exact ⟨rfl, rfl, rfl, by simp [constructionEvents], by simp [constructionEvents],
      hrev_ag, hrev_tk⟩
  · rw [run_ok st env llm environ2 w c steps hg hw hc hk]
    exact ⟨rfl, rfl, rfl, by simp [constructionEvents], by simp [constructionEvents],
      hrev_ag, hrev_tk⟩

/-- C9, witness: the crew of the demonstration run. -/
theorem run_crew_excludes_reviewer_witness :
    kickoffCrews (run exampleState exampleEnvOk).2.1 =
      [crewOf exampleState (LLMClient.chatOpenAI "gpt-4-turbo" none) "ws-1"] ∧
    (crewOf exampleState (LLMClient.chatOpenAI "gpt-4-turbo" none) "ws-1").agents =
      [swe_agent exampleState (LLMClient.chatOpenAI "gpt-4-turbo" none) "ws-1"] ∧
    (crewOf exampleState (LLMClient.chatOpenAI "gpt-4-turbo" none) "ws-1").tasks =
      [coding_task exampleState] ∧
    Event.constructAgent (reviewer_agent exampleState
      (LLMClient.chatOpenAI "gpt-4-turbo" none)) ∈ (run exampleState exampleEnvOk).2.1 ∧
    Event.constructTask (review_task exampleState) ∈ (run exampleState exampleEnvOk).2.1 ∧
    reviewer_agent exampleState (LLMClient.chatOpenAI "gpt-4-turbo" none) ∉
      (crewOf exampleState (LLMClient.chatOpenAI "gpt-4-turbo" none) "ws-1").agents ∧
    review_task exampleState ∉
      (crewOf exampleState (LLMClient.chatOpenAI "gpt-4-turbo" none) "ws-1").tasks :=
  run_crew_excludes_reviewer exampleState exampleEnvOk
    (LLMClient.chatOpenAI "gpt-4-turbo" none) [] "ws-1" "cloned" rfl rfl rfl
